import Mathlib

/-!
Verification development for the immigration-pathfinder matching and ranking
core.  The definitions below are shallow embeddings of
`src/agents/match_agent.py` (rule evaluation) and
`src/agents/country_finder_agent.py` (scoring, classification, ranking).
Python floats are modelled as rationals, Python `None` as `Option`, and
Python truthiness is made explicit in the `truthyQ`/`pyOr`/`pyOrStr`
helpers.  Fallible entry points return `Except String`.
-/

namespace ImmigrationPathfinder

/-- Python truthiness of an optional number: `None` and `0` are falsy. -/
def truthyQ : Option ℚ → Bool
  | none => false
  | some x => x ≠ 0

/-- Python `a or b` on optional numbers: keeps `a` when it is truthy. -/
def pyOr (a b : Option ℚ) : Option ℚ := if truthyQ a then a else b

/-- Python `a or b` where `b` is already a plain string
(mirrors `rule.get("min_degree") or rule.get("minimum_degree", "")`). -/
def pyOrStr (a : Option String) (b : String) : String :=
  match a with
  | some s => if s = "" then b else s
  | none => b

/-- Case-insensitive substring test: Python `pat in s.lower()` for a
lowercase literal `pat`.  Lowering is done characterwise on the data. -/
def strContainsLower (s pat : String) : Bool :=
  decide (pat.data <:+: s.data.map Char.toLower)

/-- User profile record (`profile` dict).  Every field is optional,
matching `profile.get(...)` access in the source. -/
structure Profile where
  age : Option ℚ := none
  citizenship : Option String := none
  education_level : Option String := none
  ielts : Option ℚ := none
  german_level : Option String := none
  french_level : Option String := none
  funds_usd : Option ℚ := none
  work_experience_years : Option ℚ := none
  goal : Option String := none
  deriving DecidableEq, Repr

/-- Python `if not profile` on the profile dict: the empty record. -/
def Profile.isEmpty (p : Profile) : Bool :=
  p.age.isNone && p.citizenship.isNone && p.education_level.isNone &&
  p.ielts.isNone && p.german_level.isNone && p.french_level.isNone &&
  p.funds_usd.isNone && p.work_experience_years.isNone && p.goal.isNone

/-- Rule record, including the historical alias keys read by
`_score_single_rule` (`maximum_age` vs `age_max`, ...). -/
structure Rule where
  country : Option String := none
  pathway : Option String := none
  minimum_age : Option ℚ := none
  maximum_age : Option ℚ := none
  age_max : Option ℚ := none
  min_degree : Option String := none
  minimum_degree : Option String := none
  min_ielts : Option ℚ := none
  minimum_ielts : Option ℚ := none
  min_funds_usd : Option ℚ := none
  minimum_funds_usd : Option ℚ := none
  minimum_income_usd : Option ℚ := none
  work_experience_min_years : Option ℚ := none
  minimum_work_experience_years : Option ℚ := none
  deriving DecidableEq, Repr

/-- `gaps` structure of a match result.  `risks` is present only when
non-empty, as in the source (`if risks: gaps["risks"] = risks`). -/
structure Gaps where
  missing_requirements : List String
  risk_status : String
  risks : Option (List String)
  deriving DecidableEq, Repr

/-- MatchResult dict produced by `MatchAgent.evaluate_all`. -/
structure MatchResult where
  country : Option String
  pathway : Option String
  status : String
  raw_score : ℚ
  rule_gaps : Gaps
  deriving DecidableEq, Repr

/-- `MatchAgent.SCORE_OK`. -/
def SCORE_OK : ℚ := 0.75
/-- `MatchAgent.SCORE_BORDERLINE`. -/
def SCORE_BORDERLINE : ℚ := 0.4
/-- `MatchAgent.MAX_PENALTIES`. -/
def MAX_PENALTIES : ℚ := 5
/-- `MatchAgent.LARGE_FUNDS_GAP`. -/
def LARGE_FUNDS_GAP : ℚ := 5000

/-- `MatchAgent._normalize_degree`: lowercase, strip, spaces to underscores. -/
def normalizeDegree (degree : String) : String :=
  if degree = "" then "" else ((degree.toLower).trim).replace " " "_"

/-- `DEGREE_ORDER` dict lookup with default `-1`. -/
def DEGREE_ORDER (s : String) : Int :=
  if s = "high school" then 0
  else if s = "high_school" then 0
  else if s = "diploma" then 1
  else if s = "bachelor" then 2
  else if s = "master" then 3
  else if s = "phd" then 4
  else -1

/-- Gap message for an age below the rule minimum. -/
def ageBelowMsg (age v : ℚ) : String :=
  "Age " ++ toString age ++ " below minimum " ++ toString v

/-- Gap message for an age above the rule maximum. -/
def ageAboveMsg (age v : ℚ) : String :=
  "Age " ++ toString age ++ " above maximum " ++ toString v

/-- Gap message for an unknown degree label. -/
def unknownDegreeMsg (d : String) : String :=
  "Unknown degree level: " ++ d

/-- Gap message for a degree below the required rank. -/
def degreeBelowMsg (pd rd : String) : String :=
  "Degree " ++ pd ++ " below required " ++ rd

/-- Gap message for an IELTS score below the threshold. -/
def ieltsBelowMsg (v req : ℚ) : String :=
  "IELTS " ++ toString v ++ " below required " ++ toString req

/-- Gap message for a funds shortfall. -/
def fundsShortMsg (req have_ : ℚ) : String :=
  "Insufficient funds (need $" ++ toString req ++ ", have $" ++ toString have_ ++ ")"

/-- Risk note for a large funds gap. -/
def largeGapMsg (gap : ℚ) : String :=
  "Large funds gap ($" ++ toString gap ++ ") may increase visa refusal risk"

/-- Gap message for a work-experience shortfall. -/
def workShortMsg (v req : ℚ) : String :=
  "Insufficient work experience (" ++ toString v ++ " years, need " ++ toString req ++ ")"

/-- Age check of `_score_single_rule`: skipped entirely when the profile has
no age; the `minimum_age` and `maximum_age or age_max` sub-checks each fire
only when their threshold is truthy.  Returns (gap messages, penalties). -/
def ageCheck (p : Profile) (r : Rule) : List String × ℕ :=
  match p.age with
  | none => ([], 0)
  | some age =>
    let minPart : List String × ℕ :=
      match r.minimum_age with
      | some v => if v ≠ 0 ∧ age < v then ([ageBelowMsg age v], 1) else ([], 0)
      | none => ([], 0)
    let maxPart : List String × ℕ :=
      match pyOr r.maximum_age r.age_max with
      | some v => if v ≠ 0 ∧ age > v then ([ageAboveMsg age v], 1) else ([], 0)
      | none => ([], 0)
    (minPart.1 ++ maxPart.1, minPart.2 + maxPart.2)

/-- Degree check of `_score_single_rule`: runs only when both normalized
degree strings are non-empty. -/
def degreeCheck (p : Profile) (r : Rule) : List String × ℕ :=
  let profile_degree := normalizeDegree (p.education_level.getD "")
  let required_degree := normalizeDegree (pyOrStr r.min_degree (r.minimum_degree.getD ""))
  if profile_degree ≠ "" ∧ required_degree ≠ "" then
    let profile_rank := DEGREE_ORDER profile_degree
    let required_rank := DEGREE_ORDER required_degree
    if profile_rank < 0 then ([unknownDegreeMsg profile_degree], 1)
    else if profile_rank < required_rank then
      ([degreeBelowMsg profile_degree required_degree], 1)
    else ([], 0)
  else ([], 0)

/-- Effective IELTS threshold: `rule.get("min_ielts") or rule.get("minimum_ielts")`. -/
def requiredIelts (r : Rule) : Option ℚ := pyOr r.min_ielts r.minimum_ielts

/-- IELTS check of `_score_single_rule`: a missing profile score is
penalized whenever the rule has a threshold. -/
def ieltsCheck (p : Profile) (r : Rule) : List String × ℕ :=
  match requiredIelts r with
  | none => ([], 0)
  | some req =>
    match p.ielts with
    | none => (["IELTS score not provided"], 1)
    | some v => if v < req then ([ieltsBelowMsg v req], 1) else ([], 0)

/-- Effective funds threshold:
`min_funds_usd or minimum_funds_usd or minimum_income_usd`. -/
def requiredFunds (r : Rule) : Option ℚ :=
  pyOr (pyOr r.min_funds_usd r.minimum_funds_usd) r.minimum_income_usd

/-- Funds check of `_score_single_rule`.  Returns
(gap messages, penalties, risk notes); the risk note fires when the
shortfall exceeds `LARGE_FUNDS_GAP` and adds no extra penalty. -/
def fundsCheck (p : Profile) (r : Rule) : List String × ℕ × List String :=
  match requiredFunds r with
  | none => ([], 0, [])
  | some req =>
    match p.funds_usd with
    | none => (["Funds information not provided"], 1, [])
    | some funds =>
      if funds < req then
        let gap := req - funds
        ([fundsShortMsg req funds], 1,
          if gap > LARGE_FUNDS_GAP then [largeGapMsg gap] else [])
      else ([], 0, [])

/-- Effective work-experience threshold:
`work_experience_min_years or minimum_work_experience_years`. -/
def requiredYears (r : Rule) : Option ℚ :=
  pyOr r.work_experience_min_years r.minimum_work_experience_years

/-- Work-experience check of `_score_single_rule`. -/
def workCheck (p : Profile) (r : Rule) : List String × ℕ :=
  match requiredYears r with
  | none => ([], 0)
  | some req =>
    match p.work_experience_years with
    | none => (["Work experience not provided"], 1)
    | some v => if v < req then ([workShortMsg v req], 1) else ([], 0)

/-- Total penalty count accumulated by `_score_single_rule`. -/
def penaltiesOf (p : Profile) (r : Rule) : ℕ :=
  (ageCheck p r).2 + (degreeCheck p r).2 + (ieltsCheck p r).2 +
    (fundsCheck p r).2.1 + (workCheck p r).2

/-- Status from a score (`score >= 0.75 -> OK`, `>= 0.4 -> Borderline`,
else `High Risk`), exactly as in `_score_single_rule`. -/
def statusOf (score : ℚ) : String :=
  if score ≥ SCORE_OK then "OK"
  else if score ≥ SCORE_BORDERLINE then "Borderline"
  else "High Risk"

/-- `MatchAgent._score_single_rule`: returns `(status, score, gaps)`. -/
def scoreSingleRule (p : Profile) (r : Rule) : String × ℚ × Gaps :=
  let a := ageCheck p r
  let d := degreeCheck p r
  let i := ieltsCheck p r
  let f := fundsCheck p r
  let w := workCheck p r
  let missing := a.1 ++ d.1 ++ i.1 ++ f.1 ++ w.1
  let risks := f.2.2
  let penalties : ℕ := a.2 + d.2 + i.2 + f.2.1 + w.2
  let score : ℚ := max 0 (1 - (penalties : ℚ) / MAX_PENALTIES)
  let status := statusOf score
  (status, score,
    { missing_requirements := missing
      risk_status := if risks ≠ [] then "Risk" else "No Risk"
      risks := if risks ≠ [] then some risks else none })

/-- MatchResult dict assembled in the `evaluate_all` loop for one rule. -/
def matchResultFor (p : Profile) (r : Rule) : MatchResult :=
  { country := r.country
    pathway := r.pathway
    status := (scoreSingleRule p r).1
    raw_score := (scoreSingleRule p r).2.1
    rule_gaps := (scoreSingleRule p r).2.2 }

/-- `GOAL_ALIASES` dict lookup. -/
def goalAliases (goal : String) : Option (List String) :=
  if goal = "work" then some ["work", "job", "worker", "skilled_worker", "work_visa"]
  else if goal = "study" then some ["study", "student", "study_visa", "student_visa", "education"]
  else if goal = "family" then some ["family", "spouse", "marriage", "sponsorship", "family_visa"]
  else none

/-- The `continue` filter of `evaluate_all`, negated: `true` means the rule
is evaluated.  Filtering happens only when the goal, the pathway and the
alias set are all truthy. -/
def keepRule (goal : String) (r : Rule) : Bool :=
  let pathway := ((r.pathway.getD "").trim).toLower
  match goalAliases goal with
  | some al => if goal ≠ "" ∧ pathway ≠ "" then al.contains pathway else true
  | none => true

/-- Loop body of `MatchAgent.evaluate_all` over the rule list. -/
def evaluateAllCore (rules : List Rule) (p : Profile) : List MatchResult :=
  let goal := ((p.goal.getD "").trim).toLower
  rules.filterMap fun r =>
    if keepRule goal r then some (matchResultFor p r) else none

/-- `MatchAgent` construction plus `evaluate_all`: empty rules fail at
`__init__`, an empty profile fails at the start of `evaluate_all`. -/
def evaluateAll (rules : List Rule) (p : Profile) : Except String (List MatchResult) :=
  if rules = [] then .error "Rules list cannot be empty"
  else if p.isEmpty then .error "Profile cannot be empty"
  else .ok (evaluateAllCore rules p)

/-- `CountryFinderAgent.BEST_THRESHOLD`. -/
def BEST_THRESHOLD : ℚ := 80.0
/-- `CountryFinderAgent.ACCEPTABLE_THRESHOLD`. -/
def ACCEPTABLE_THRESHOLD : ℚ := 60.0

/-- One entry of the static `COUNTRY_DATA` table. -/
structure CountryData where
  visa_difficulty : ℚ
  quality_of_life : ℚ
  cost_of_living : ℚ
  job_market : ℚ
  languages : List String
  deriving DecidableEq, Repr

/-- The four numeric factor keys of `COUNTRY_DATA`. -/
inductive Factor
  | visa_difficulty | quality_of_life | cost_of_living | job_market
  deriving DecidableEq, Repr

/-- Field lookup on a country record by factor key. -/
def CountryData.get (d : CountryData) : Factor → ℚ
  | .visa_difficulty => d.visa_difficulty
  | .quality_of_life => d.quality_of_life
  | .cost_of_living => d.cost_of_living
  | .job_market => d.job_market

/-- `CountryFinderAgent.COUNTRY_DATA` lookup. -/
def countryData (c : String) : Option CountryData :=
  if c = "Canada" then some ⟨0.65, 0.90, 0.60, 0.75, ["english", "french"]⟩
  else if c = "USA" then some ⟨0.40, 0.85, 0.50, 0.85, ["english"]⟩
  else if c = "Germany" then some ⟨0.70, 0.90, 0.75, 0.80, ["german", "english"]⟩
  else if c = "Netherlands" then some ⟨0.70, 0.90, 0.65, 0.75, ["dutch", "english"]⟩
  else if c = "Ireland" then some ⟨0.65, 0.85, 0.55, 0.80, ["english"]⟩
  else if c = "Sweden" then some ⟨0.70, 0.95, 0.60, 0.70, ["swedish", "english"]⟩
  else if c = "Australia" then some ⟨0.55, 0.90, 0.50, 0.80, ["english"]⟩
  else if c = "New Zealand" then some ⟨0.65, 0.90, 0.60, 0.70, ["english"]⟩
  else none

/-- `CountryFinderAgent._get_country_factor`: unknown country or missing
key falls back to `0.5`. -/
def getCountryFactor (c : String) (f : Factor) : ℚ :=
  match countryData c with
  | some d => d.get f
  | none => 0.5

/-- Supported-languages list of a country (`country_data.get("languages", [])`). -/
def countryLanguages (c : String) : List String :=
  match countryData c with
  | some d => d.languages
  | none => []

/-- `CountryFinderAgent._score_eligibility`: `raw_score` scaled by status. -/
def scoreEligibility (mr : MatchResult) : ℚ :=
  if mr.status = "OK" then mr.raw_score
  else if mr.status = "Borderline" then mr.raw_score * 0.8
  else mr.raw_score * 0.5

/-- `CountryFinderAgent._score_language_alignment`. -/
def scoreLanguageAlignment (p : Profile) (country : String) : ℚ :=
  let langs := countryLanguages country
  let english : ℚ :=
    if langs.contains "english" then
      let ielts := p.ielts.getD 0
      if ielts ≥ 7.0 then 0.5
      else if ielts ≥ 6.0 then 0.4
      else if ielts ≥ 5.5 then 0.3
      else if ielts > 0 then 0.2
      else 0
    else 0
  let german : ℚ :=
    if langs.contains "german" then
      let lvl := (pyOrStr p.german_level "none").toLower
      if lvl = "c1" ∨ lvl = "c2" then 0.5
      else if lvl = "b1" ∨ lvl = "b2" then 0.4
      else if lvl = "a1" ∨ lvl = "a2" then 0.2
      else 0
    else 0
  let french : ℚ :=
    if langs.contains "french" then
      let lvl := (pyOrStr p.french_level "none").toLower
      if lvl = "c1" ∨ lvl = "c2" then 0.5
      else if lvl = "b1" ∨ lvl = "b2" then 0.4
      else if lvl = "a1" ∨ lvl = "a2" then 0.2
      else 0
    else 0
  min (english + german + french) 1.0

/-- The funds-issue scan of `_score_financial_capacity`:
`"funds" in req.lower() or "insufficient" in req.lower()`. -/
def fundsIssuePred (req : String) : Bool :=
  strContainsLower req "funds" || strContainsLower req "insufficient"

/-- Whether any gap message triggers the funds-issue scan. -/
def hasFundsIssueL (l : List String) : Bool := l.any fundsIssuePred

/-- `CountryFinderAgent._score_financial_capacity`. -/
def scoreFinancialCapacity (mr : MatchResult) : ℚ :=
  if !hasFundsIssueL mr.rule_gaps.missing_requirements then 1.0
  else
    let raw := mr.raw_score
    if raw ≥ 0.8 then 0.9
    else if raw ≥ 0.6 then 0.7
    else if raw ≥ 0.4 then 0.5
    else 0.3

/-- `CountryFinderAgent.WEIGHTS` dict lookup. -/
def WEIGHTS (factor : String) : ℚ :=
  if factor = "eligibility" then 0.30
  else if factor = "language_alignment" then 0.15
  else if factor = "financial_capacity" then 0.20
  else if factor = "visa_difficulty" then 0.10
  else if factor = "quality_of_life" then 0.10
  else if factor = "cost_of_living" then 0.10
  else if factor = "job_market" then 0.05
  else 0

/-- The keys of the `factors` dict built in `_calculate_final_score`. -/
def factorNames : List String :=
  ["eligibility", "language_alignment", "financial_capacity",
   "visa_difficulty", "quality_of_life", "cost_of_living", "job_market"]

/-- Python `round(x, 2)` modelled on rationals. -/
def pyRound2 (x : ℚ) : ℚ := ((round (x * 100) : ℤ) : ℚ) / 100

/-- `CountryFinderAgent._calculate_final_score`: weighted sum of the seven
factors, times 100, rounded to two decimals. -/
def calculateFinalScore (p : Profile) (mr : MatchResult) : ℚ :=
  let country := mr.country.getD ""
  let factors : List (String × ℚ) :=
    [("eligibility", scoreEligibility mr),
     ("language_alignment", scoreLanguageAlignment p country),
     ("financial_capacity", scoreFinancialCapacity mr),
     ("visa_difficulty", getCountryFactor country .visa_difficulty),
     ("quality_of_life", getCountryFactor country .quality_of_life),
     ("cost_of_living", getCountryFactor country .cost_of_living),
     ("job_market", getCountryFactor country .job_market)]
  let weighted_score := (factors.map fun fs => WEIGHTS fs.1 * fs.2).sum
  pyRound2 (weighted_score * 100)

/-- Scored-country record built in `rank_countries`. -/
structure ScoredCountry where
  country : String
  score : ℚ
  match_result : MatchResult
  pathway : Option String
  deriving DecidableEq, Repr

/-- Tier entry carried by `best_options` and `acceptable`. -/
structure TierEntry where
  country : String
  score : ℚ
  pathway : Option String
  reason : String
  deriving DecidableEq, Repr

/-- Result of `_classify_countries`. -/
structure Classification where
  best_options : List TierEntry
  acceptable : List TierEntry
  not_recommended : List String
  deriving DecidableEq, Repr

/-- `CountryFinderAgent._generate_reason`. -/
def generateReason (item : ScoredCountry) (category : String) : String :=
  let status := item.match_result.status
  if category = "best" then
    "Strong match with eligibility status " ++ status ++
      ", good language alignment, and favorable conditions."
  else
    let gaps := item.match_result.rule_gaps.missing_requirements
    if gaps ≠ [] then
      "Acceptable match but has minor gaps: " ++ String.intercalate ", " (gaps.take 2) ++
        ". Consider addressing these to improve chances."
    else "Acceptable match with status " ++ status ++ "."

/-- `CountryFinderAgent._classify_countries`: threshold partition of the
scored list; `not_recommended` keeps only the country name. -/
def classifyCountries : List ScoredCountry → Classification
  | [] => ⟨[], [], []⟩
  | item :: rest =>
    let c := classifyCountries rest
    if item.score ≥ BEST_THRESHOLD then
      { c with best_options :=
          ⟨item.country, item.score, item.pathway, generateReason item "best"⟩ :: c.best_options }
    else if item.score ≥ ACCEPTABLE_THRESHOLD then
      { c with acceptable :=
          ⟨item.country, item.score, item.pathway, generateReason item "acceptable"⟩ :: c.acceptable }
    else
      { c with not_recommended := item.country :: c.not_recommended }

/-- Insertion step of a stable descending sort by score: an element moves
ahead only of strictly lower scores, so ties keep their original order. -/
def insertDesc (x : ScoredCountry) : List ScoredCountry → List ScoredCountry
  | [] => [x]
  | y :: ys => if x.score > y.score then x :: y :: ys else y :: insertDesc x ys

/-- Stable descending sort by score, the model of
`scored_countries.sort(key=..., reverse=True)` (Python sorts are stable). -/
def sortDesc : List ScoredCountry → List ScoredCountry
  | [] => []
  | x :: xs => insertDesc x (sortDesc xs)

/-- Python `if not country: continue` on a match result: the country that
survives the truthiness filter, if any. -/
def truthyCountry (mr : MatchResult) : Option String :=
  match mr.country with
  | none => none
  | some c => if c = "" then none else some c

/-- One scored entry of the `rank_countries` loop, skipping falsy countries. -/
def scoredOf (p : Profile) (mr : MatchResult) : Option ScoredCountry :=
  match truthyCountry mr with
  | none => none
  | some c => some ⟨c, calculateFinalScore p mr, mr, mr.pathway⟩

/-- Python dict assignment `scores_dict[country] = score`: last write wins,
first insertion position kept. -/
def dictInsert (d : List (String × ℚ)) (k : String) (v : ℚ) : List (String × ℚ) :=
  if d.any (fun kv => kv.1 = k) then
    d.map fun kv => if kv.1 = k then (k, v) else kv
  else d ++ [(k, v)]

/-- Per-country row of `detailed_breakdown`. -/
structure BreakdownEntry where
  country : String
  pathway : Option String
  final_score : ℚ
  eligibility_status : String
  eligibility_raw_score : ℚ
  language_score : ℚ
  financial_score : ℚ
  visa_difficulty : ℚ
  quality_of_life : ℚ
  cost_of_living : ℚ
  job_market : ℚ
  deriving DecidableEq, Repr

/-- Breakdown row for one scored country. -/
def breakdownOf (p : Profile) (item : ScoredCountry) : BreakdownEntry :=
  { country := item.country
    pathway := item.pathway
    final_score := item.score
    eligibility_status := item.match_result.status
    eligibility_raw_score := item.match_result.raw_score
    language_score := pyRound2 (scoreLanguageAlignment p item.country * 100)
    financial_score := pyRound2 (scoreFinancialCapacity item.match_result * 100)
    visa_difficulty := pyRound2 (getCountryFactor item.country .visa_difficulty * 100)
    quality_of_life := pyRound2 (getCountryFactor item.country .quality_of_life * 100)
    cost_of_living := pyRound2 (getCountryFactor item.country .cost_of_living * 100)
    job_market := pyRound2 (getCountryFactor item.country .job_market * 100) }

/-- Full output of `rank_countries`. -/
structure RankingOutput where
  best_options : List TierEntry
  acceptable : List TierEntry
  not_recommended : List String
  scores : List (String × ℚ)
  detailed_breakdown : List BreakdownEntry
  deriving DecidableEq, Repr

/-- Body of `CountryFinderAgent.rank_countries` after the constructor
validation: score every match result with a truthy country, build the
scores dict in input order, stable-sort descending by score, classify,
and emit the breakdown in sorted order. -/
def rankCountriesCore (matchResults : List MatchResult) (p : Profile) : RankingOutput :=
  let scored := matchResults.filterMap (scoredOf p)
  let scores := scored.foldl (fun d item => dictInsert d item.country item.score) []
  let sorted := sortDesc scored
  let cls := classifyCountries sorted
  { best_options := cls.best_options
    acceptable := cls.acceptable
    not_recommended := cls.not_recommended
    scores := scores
    detailed_breakdown := sorted.map (breakdownOf p) }

/-- `CountryFinderAgent` construction plus `rank_countries`: empty match
results or an empty profile fail at `__init__`. -/
def rankCountries (matchResults : List MatchResult) (p : Profile) :
    Except String RankingOutput :=
  if matchResults = [] then .error "match_results cannot be empty"
  else if p.isEmpty then .error "user_profile cannot be empty"
  else .ok (rankCountriesCore matchResults p)

/-- `CountryFinderAgent.get_top_recommendation`: first best country, else
first acceptable country, else none. -/
def getTopRecommendation (matchResults : List MatchResult) (p : Profile) :
    Except String (Option String) :=
  (rankCountries matchResults p).map fun ranking =>
    match ranking.best_options with
    | e :: _ => some e.country
    | [] =>
      match ranking.acceptable with
      | e :: _ => some e.country
      | [] => none

/-- Full per-rule pipeline: evaluate one rule, then score the resulting
match result against the static country data (the composition the spec's
monotonicity property quantifies over). -/
def pipelineScore (p : Profile) (r : Rule) : ℚ :=
  calculateFinalScore p (matchResultFor p r)

/-- The per-rule pipeline with the funds-check outcome
(gap messages, penalties, risk notes) abstracted as a parameter;
`pipelineFrom p r (fundsCheck p r)` is definitionally `pipelineScore p r`. -/
def pipelineFrom (p : Profile) (r : Rule) (fc : List String × ℕ × List String) : ℚ :=
  let a := ageCheck p r
  let d := degreeCheck p r
  let i := ieltsCheck p r
  let w := workCheck p r
  let missing := a.1 ++ d.1 ++ i.1 ++ fc.1 ++ w.1
  let risks := fc.2.2
  let penalties : ℕ := a.2 + d.2 + i.2 + fc.2.1 + w.2
  let score : ℚ := max 0 (1 - (penalties : ℚ) / MAX_PENALTIES)
  calculateFinalScore p
    { country := r.country
      pathway := r.pathway
      status := statusOf score
      raw_score := score
      rule_gaps :=
        { missing_requirements := missing
          risk_status := if risks ≠ [] then "Risk" else "No Risk"
          risks := if risks ≠ [] then some risks else none } }

/-- Eligibility factor as a function of the score alone (proof helper:
`_score_eligibility` applied to a status derived from the score). -/
def eligVal (s : ℚ) : ℚ :=
  if s ≥ SCORE_OK then s else if s ≥ SCORE_BORDERLINE then s * 0.8 else s * 0.5

/-- Financial band of `_score_financial_capacity` as a function of the raw
score (proof helper). -/
def bandVal (s : ℚ) : ℚ :=
  if s ≥ 0.8 then 0.9 else if s ≥ 0.6 then 0.7 else if s ≥ 0.4 then 0.5 else 0.3

/-! ### Shared example inputs -/

/-- A minimal non-empty profile with a strong IELTS score. -/
def profIelts7 : Profile := { ielts := some 7 }

/-- A profile that reports work experience but no funds. -/
def profWorkOne : Profile := { ielts := some 7, work_experience_years := some 1 }

/-- A profile with only an age. -/
def profAge60 : Profile := { age := some 60 }

/-- A profile whose goal has no alias set. -/
def profGoalPr : Profile := { goal := some "pr", ielts := some 7 }

/-- A rule that only requires a minimum age. -/
def ruleMinAge18 : Rule := { minimum_age := some 18 }

/-- A rule that only requires work experience. -/
def ruleWork5 : Rule := { country := some "Canada", work_experience_min_years := some 5 }

/-- A rule with a zero `maximum_age` and a non-zero alias `age_max`. -/
def ruleZeroMaxAge : Rule := { maximum_age := some 0, age_max := some 50 }

/-- A rule with a `Study` pathway. -/
def ruleStudyPathway : Rule := { country := some "X", pathway := some "Study" }

/-- A rule that only requires funds. -/
def ruleFunds10000 : Rule := { min_funds_usd := some 10000 }

/-- A rule with a zero funds threshold and no aliases. -/
def ruleZeroFunds : Rule := { min_funds_usd := some 0 }

/-- Match result used for boundary classification checks. -/
def sampleMR : MatchResult :=
  { country := some "X", pathway := none, status := "OK", raw_score := 1,
    rule_gaps := ⟨[], "No Risk", none⟩ }

/-- A scored country with a chosen score, for boundary checks. -/
def sampleScored (s : ℚ) : ScoredCountry := ⟨"X", s, sampleMR, none⟩

/-- Match result for a country that ranks in the best tier
(Canada, clean OK result, IELTS 7 profile scores 82.75). -/
def mrCanadaBest : MatchResult :=
  { country := some "Canada", pathway := some "Study", status := "OK", raw_score := 1,
    rule_gaps := ⟨[], "No Risk", none⟩ }

/-- Match result for the same country that ranks not-recommended
(eligibility 0, funds gap, scores 38.75). -/
def mrCanadaWorst : MatchResult :=
  { country := some "Canada", pathway := some "Work", status := "High Risk", raw_score := 0,
    rule_gaps := ⟨["Insufficient funds (need $30000, have $0)"], "Risk", none⟩ }

/-! ### Theorems -/

/-- C6: for every profile and rule the rule evaluator returns
`score = max(0, 1 - penalties/5)`, the score lies in `[0, 1]`, and the
status is the deterministic threshold function of the score
(`≥ 0.75 → OK`, `≥ 0.4 → Borderline`, else High Risk), so no score in
`[0.75, 1]` maps to anything but OK. -/
theorem C6_score_formula_and_status (p : Profile) (r : Rule) :
    (scoreSingleRule p r).2.1 = max 0 (1 - (penaltiesOf p r : ℚ) / 5) ∧
    0 ≤ (scoreSingleRule p r).2.1 ∧ (scoreSingleRule p r).2.1 ≤ 1 ∧
    (scoreSingleRule p r).1 =
      (if (scoreSingleRule p r).2.1 ≥ 0.75 then "OK"
       else if (scoreSingleRule p r).2.1 ≥ 0.4 then "Borderline"
       else "High Risk") := by
  refine ⟨rfl, le_max_left _ _, ?_, rfl⟩
  have hp : (0 : ℚ) ≤ (penaltiesOf p r : ℚ) := Nat.cast_nonneg _
  have : (scoreSingleRule p r).2.1 = max 0 (1 - (penaltiesOf p r : ℚ) / 5) := rfl
  rw [this]
  apply max_le (by norm_num)
  linarith

/-- C8: classification is a pure threshold partition on the final score
(`score ≥ 80 → best`, `60 ≤ score < 80 → acceptable`, else
`not_recommended`), and at the boundaries 80.00 is best, 79.99 acceptable,
60.00 acceptable and 59.99 not recommended. -/
theorem C8_threshold_partition (item : ScoredCountry) :
    (BEST_THRESHOLD = 80 ∧ ACCEPTABLE_THRESHOLD = 60) ∧
    classifyCountries [item] =
      (if item.score ≥ 80 then
        ⟨[⟨item.country, item.score, item.pathway, generateReason item "best"⟩], [], []⟩
      else if item.score ≥ 60 then
        ⟨[], [⟨item.country, item.score, item.pathway, generateReason item "acceptable"⟩], []⟩
      else ⟨[], [], [item.country]⟩) ∧
    (classifyCountries [sampleScored 80]).best_options.map TierEntry.country = ["X"] ∧
    (classifyCountries [sampleScored 79.99]).best_options = [] ∧
    (classifyCountries [sampleScored 79.99]).acceptable.map TierEntry.country = ["X"] ∧
    (classifyCountries [sampleScored 60]).acceptable.map TierEntry.country = ["X"] ∧
    (classifyCountries [sampleScored 59.99]).acceptable = [] ∧
    (classifyCountries [sampleScored 59.99]).not_recommended = ["X"] := by
  refine ⟨⟨by norm_num [BEST_THRESHOLD], by norm_num [ACCEPTABLE_THRESHOLD]⟩, ?_,
    by with_unfolding_all decide, by with_unfolding_all decide, by with_unfolding_all decide,
    by with_unfolding_all decide, by with_unfolding_all decide, by with_unfolding_all decide⟩
  show classifyCountries [item] = _
  unfold classifyCountries
  norm_num [BEST_THRESHOLD, ACCEPTABLE_THRESHOLD]
  split_ifs <;> rfl

/-- C9: `evaluateAll` fails with a validation error when the rule list is
empty or the profile is empty, and `rankCountries` fails when the
match-result list is empty; an `Except.error` result carries no partial
output. -/
theorem C9_invalid_input (p : Profile) (rules : List Rule) (mrs : List MatchResult) :
    (rules = [] → evaluateAll rules p = .error "Rules list cannot be empty") ∧
    (p.isEmpty = true → ∃ e, evaluateAll rules p = .error e) ∧
    (mrs = [] → rankCountries mrs p = .error "match_results cannot be empty") := by
  refine ⟨fun h => by simp [evaluateAll, h], fun h => ?_, fun h => by simp [rankCountries, h]⟩
  by_cases hr : rules = []
  · exact ⟨"Rules list cannot be empty", by simp [evaluateAll, hr]⟩
  · exact ⟨"Profile cannot be empty", by simp [evaluateAll, hr, h]⟩

/-- C9 witness: concrete empty inputs hit each error. -/
theorem C9_invalid_input_witness :
    evaluateAll [] profIelts7 = .error "Rules list cannot be empty" ∧
    (∃ e, evaluateAll [ruleMinAge18] ({} : Profile) = .error e) ∧
    rankCountries [] profIelts7 = .error "match_results cannot be empty" :=
  ⟨(C9_invalid_input profIelts7 [] []).1 rfl,
   (C9_invalid_input ({} : Profile) [ruleMinAge18] []).2.1 (by decide),
   (C9_invalid_input profIelts7 [] []).2.2 rfl⟩

/-- C2 counterexample: the rule requires a minimum age of 18 and the
profile has no age, yet no penalty point and no gap entry is added — the
whole age check is skipped when the profile lacks an age, so the claim's
"missing-but-required is penalized" fails for the age thresholds. -/
theorem C2_counterexample :
    ruleMinAge18.minimum_age = some 18 ∧ profIelts7.age = none ∧
    (scoreSingleRule profIelts7 ruleMinAge18).2.2.missing_requirements = [] ∧
    penaltiesOf profIelts7 ruleMinAge18 = 0 := by with_unfolding_all decide

/-- C2 (amended): a check is silently skipped when its effective rule
threshold is absent; a missing profile field is penalized with one gap
entry only for the IELTS, funds and work-experience checks, while the age
and degree checks are skipped entirely whenever the profile field is
absent, even if the rule sets a threshold.  The gap list of
`scoreSingleRule` is exactly the concatenation of the per-check gaps. -/
theorem C2_amended (p : Profile) (r : Rule) :
    ((scoreSingleRule p r).2.2.missing_requirements =
      (ageCheck p r).1 ++ (degreeCheck p r).1 ++ (ieltsCheck p r).1 ++
        (fundsCheck p r).1 ++ (workCheck p r).1) ∧
    (requiredIelts r = none → ieltsCheck p r = ([], 0)) ∧
    (requiredFunds r = none → fundsCheck p r = ([], 0, [])) ∧
    (requiredYears r = none → workCheck p r = ([], 0)) ∧
    (truthyQ r.minimum_age = false ∧ truthyQ (pyOr r.maximum_age r.age_max) = false →
      ageCheck p r = ([], 0)) ∧
    (normalizeDegree (pyOrStr r.min_degree (r.minimum_degree.getD "")) = "" →
      degreeCheck p r = ([], 0)) ∧
    (requiredIelts r ≠ none → p.ielts = none →
      ieltsCheck p r = (["IELTS score not provided"], 1)) ∧
    (requiredFunds r ≠ none → p.funds_usd = none →
      fundsCheck p r = (["Funds information not provided"], 1, [])) ∧
    (requiredYears r ≠ none → p.work_experience_years = none →
      workCheck p r = (["Work experience not provided"], 1)) ∧
    (p.age = none → ageCheck p r = ([], 0)) ∧
    (normalizeDegree (p.education_level.getD "") = "" → degreeCheck p r = ([], 0)) := by
  refine ⟨rfl, ?_, ?_, ?_, ?_, ?_, ?_, ?_, ?_, ?_, ?_⟩
  · intro h; unfold ieltsCheck; rw [h]
  · intro h; unfold fundsCheck; rw [h]
  · intro h; unfold workCheck; rw [h]
  · rintro ⟨h1, h2⟩
    unfold ageCheck
    cases hage : p.age with
    | none => rfl
    | some age =>
      cases hmin : r.minimum_age with
      | none =>
        cases hmax : pyOr r.maximum_age r.age_max with
        | none => rfl
        | some v =>
          rw [hmax] at h2
          simp only [truthyQ, decide_eq_false_iff_not, not_not] at h2
          simp [h2]
      | some v =>
        rw [hmin] at h1
        simp only [truthyQ, decide_eq_false_iff_not, not_not] at h1
        cases hmax : pyOr r.maximum_age r.age_max with
        | none => simp [h1]
        | some v' =>
          rw [hmax] at h2
          simp only [truthyQ, decide_eq_false_iff_not, not_not] at h2
          simp [h1, h2]
  · intro h; unfold degreeCheck; rw [h]; simp
  · intro hne hnone
    cases hr : requiredIelts r with
    | none => exact absurd hr hne
    | some req => unfold ieltsCheck; rw [hr, hnone]
  · intro hne hnone
    cases hr : requiredFunds r with
    | none => exact absurd hr hne
    | some req => unfold fundsCheck; rw [hr, hnone]
  · intro hne hnone
    cases hr : requiredYears r with
    | none => exact absurd hr hne
    | some req => unfold workCheck; rw [hr, hnone]
  · intro h; unfold ageCheck; rw [h]
  · intro h; unfold degreeCheck; rw [h]; simp

/-- C2 witness: a rule requiring funds against a profile without funds
yields exactly one penalty and one gap entry. -/
theorem C2_amended_witness :
    fundsCheck profIelts7 ruleFunds10000 = (["Funds information not provided"], 1, []) :=
  (C2_amended profIelts7 ruleFunds10000).2.2.2.2.2.2.2.1 (by with_unfolding_all decide) rfl

/-- C3 counterexample: a match result whose only gap is the
work-experience shortfall message contains no funds-related string, yet
the financial-capacity sub-score is 0.9, not 1.0 — the scan also matches
the word "insufficient" from the work-experience message. -/
theorem C3_counterexample :
    ((matchResultFor profWorkOne ruleWork5).rule_gaps.missing_requirements.all
      fun req => !strContainsLower req "funds") = true ∧
    scoreFinancialCapacity (matchResultFor profWorkOne ruleWork5) = 0.9 ∧
    scoreFinancialCapacity (matchResultFor profWorkOne ruleWork5) ≠ 1 := by
  refine ⟨by with_unfolding_all decide, by with_unfolding_all decide,
    by with_unfolding_all decide⟩

/-- C3 (amended): the financial-capacity sub-score is 1.0 iff no string
containing "funds" or "insufficient" (case-insensitively) appears in
`missing_requirements` — so the work-experience shortfall message also
triggers the banded branch; otherwise the score is banded by `raw_score`
(`≥0.8→0.9`, `≥0.6→0.7`, `≥0.4→0.5`, else `0.3`). -/
theorem C3_amended (mr : MatchResult) :
    (scoreFinancialCapacity mr = 1 ↔
      hasFundsIssueL mr.rule_gaps.missing_requirements = false) ∧
    (hasFundsIssueL mr.rule_gaps.missing_requirements = true →
      scoreFinancialCapacity mr =
        (if mr.raw_score ≥ 0.8 then 0.9
         else if mr.raw_score ≥ 0.6 then 0.7
         else if mr.raw_score ≥ 0.4 then 0.5
         else 0.3)) := by
  unfold scoreFinancialCapacity
  cases h : hasFundsIssueL mr.rule_gaps.missing_requirements
  · exact ⟨by norm_num, fun h1 => absurd h1 (by simp)⟩
  · constructor
    · constructor
      · intro h1
        exfalso
        rw [if_neg (show ¬((!true) = true) by simp)] at h1
        revert h1
        dsimp only
        split_ifs <;> norm_num
      · intro h1; exact absurd h1 (by simp)
    · intro _
      rw [if_neg (show ¬((!true) = true) by simp)]

/-- C3 witness: the banded branch applied at the work-experience example. -/
theorem C3_amended_witness :
    scoreFinancialCapacity (matchResultFor profWorkOne ruleWork5) =
      (if (matchResultFor profWorkOne ruleWork5).raw_score ≥ 0.8 then 0.9
       else if (matchResultFor profWorkOne ruleWork5).raw_score ≥ 0.6 then 0.7
       else if (matchResultFor profWorkOne ruleWork5).raw_score ≥ 0.4 then 0.5
       else 0.3) :=
  (C3_amended (matchResultFor profWorkOne ruleWork5)).2 (by with_unfolding_all decide)

/-- C4 counterexample: with goal "pr" (which has no alias set) and rule
pathway "Study", the goal and pathway do not match in the claim's sense,
yet the rule is still included and evaluated: no filtering occurs for a
goal outside the alias table. -/
theorem C4_counterexample :
    goalAliases "pr" = none ∧ ("pr" : String) ≠ "study" ∧
    (evaluateAll [ruleStudyPathway] profGoalPr).toOption.map List.length = some 1 := by
  refine ⟨rfl, by decide, by with_unfolding_all decide⟩

/-- C4 (amended): filtering occurs only when the normalized goal is one of
the alias-table keys (work/study/family) and the rule's pathway is
non-empty; then the rule is kept iff its normalized pathway belongs to the
goal's alias set (each set contains the goal itself, so case-insensitive
exact match is included).  For any goal outside the table, or when either
side is unset, the rule is always included. -/
theorem C4_amended (p : Profile) (r : Rule) :
    evaluateAllCore [r] p =
      (let goal := ((p.goal.getD "").trim).toLower
       let pathway := ((r.pathway.getD "").trim).toLower
       match goalAliases goal with
       | none => [matchResultFor p r]
       | some al =>
         if goal ≠ "" ∧ pathway ≠ "" ∧ pathway ∉ al then []
         else [matchResultFor p r]) := by
  unfold evaluateAllCore keepRule
  cases hal : goalAliases (((p.goal.getD "").trim).toLower) with
  | none => simp [hal]
  | some al =>
    by_cases hg : ((p.goal.getD "").trim).toLower = ""
    · simp only [hg] at hal
      simp [hg, hal]
    · by_cases hp : ((r.pathway.getD "").trim).toLower = ""
      · simp [hg, hp, hal]
      · by_cases hm : ((r.pathway.getD "").trim).toLower ∈ al
        · simp [hg, hp, hal, hm]
        · simp [hg, hp, hal, hm]

/-- C10 counterexample: with `maximum_age = 0` the evaluator does not skip
the maximum-age check; the lookup falls through to the alias `age_max = 50`
and an over-age profile is penalized with a gap entry. -/
theorem C10_counterexample :
    ruleZeroMaxAge.maximum_age = some 0 ∧
    (scoreSingleRule profAge60 ruleZeroMaxAge).2.2.missing_requirements =
      ["Age 60 above maximum 50"] ∧
    penaltiesOf profAge60 ruleZeroMaxAge = 1 := by
  refine ⟨rfl, by with_unfolding_all decide, by with_unfolding_all decide⟩

/-- Congruence helper: the rule evaluator is determined by its five checks. -/
theorem scoreSingleRule_congr (p : Profile) (r r2 : Rule)
    (ha : ageCheck p r = ageCheck p r2) (hd : degreeCheck p r = degreeCheck p r2)
    (hi : ieltsCheck p r = ieltsCheck p r2) (hf : fundsCheck p r = fundsCheck p r2)
    (hw : workCheck p r = workCheck p r2) :
    scoreSingleRule p r = scoreSingleRule p r2 := by
  unfold scoreSingleRule
  rw [ha, hd, hi, hf, hw]

/-- C10 (amended): a zero numeric threshold is treated exactly like an
absent one for that key — the evaluator behaves as if the key were unset,
falling through to the rule's alias keys; only when the alias keys are
also unset (or, for `minimum_age`, unconditionally) is the check fully
skipped with no penalty, gap or risk, regardless of the profile. -/
theorem C10_amended (p : Profile) (r : Rule) :
    (r.minimum_age = some 0 →
      scoreSingleRule p r = scoreSingleRule p { r with minimum_age := none }) ∧
    (r.maximum_age = some 0 →
      scoreSingleRule p r = scoreSingleRule p { r with maximum_age := none }) ∧
    (r.min_ielts = some 0 →
      scoreSingleRule p r = scoreSingleRule p { r with min_ielts := none }) ∧
    (r.min_funds_usd = some 0 →
      scoreSingleRule p r = scoreSingleRule p { r with min_funds_usd := none }) ∧
    (r.work_experience_min_years = some 0 →
      scoreSingleRule p r = scoreSingleRule p { r with work_experience_min_years := none }) ∧
    (r.min_ielts = some 0 ∧ r.minimum_ielts = none → ieltsCheck p r = ([], 0)) ∧
    (r.min_funds_usd = some 0 ∧ r.minimum_funds_usd = none ∧ r.minimum_income_usd = none →
      fundsCheck p r = ([], 0, [])) ∧
    (r.work_experience_min_years = some 0 ∧ r.minimum_work_experience_years = none →
      workCheck p r = ([], 0)) ∧
    (r.minimum_age = some 0 ∧ r.maximum_age = none ∧ r.age_max = none →
      ageCheck p r = ([], 0)) ∧
    (r.maximum_age = some 0 ∧ r.minimum_age = none ∧ r.age_max = none →
      ageCheck p r = ([], 0)) := by
  refine ⟨?_, ?_, ?_, ?_, ?_, ?_, ?_, ?_, ?_, ?_⟩
  · intro h
    refine scoreSingleRule_congr p r _ ?_ rfl rfl rfl rfl
    unfold ageCheck
    cases p.age with
    | none => rfl
    | some age => rw [h]; simp
  · intro h
    refine scoreSingleRule_congr p r _ ?_ rfl rfl rfl rfl
    unfold ageCheck
    cases p.age with
    | none => rfl
    | some age =>
      have hmax : pyOr r.maximum_age r.age_max =
          pyOr ({ r with maximum_age := none } : Rule).maximum_age r.age_max := by
        rw [h]; rfl
      rw [hmax]
  · intro h
    refine scoreSingleRule_congr p r _ rfl rfl ?_ rfl rfl
    unfold ieltsCheck requiredIelts
    rw [h]; rfl
  · intro h
    refine scoreSingleRule_congr p r _ rfl rfl rfl ?_ rfl
    unfold fundsCheck requiredFunds
    rw [h]; rfl
  · intro h
    refine scoreSingleRule_congr p r _ rfl rfl rfl rfl ?_
    unfold workCheck requiredYears
    rw [h]; rfl
  · rintro ⟨h1, h2⟩
    unfold ieltsCheck requiredIelts
    rw [h1, h2]; rfl
  · rintro ⟨h1, h2, h3⟩
    unfold fundsCheck requiredFunds
    rw [h1, h2, h3]; rfl
  · rintro ⟨h1, h2⟩
    unfold workCheck requiredYears
    rw [h1, h2]; rfl
  · rintro ⟨h1, h2, h3⟩
    unfold ageCheck
    cases p.age with
    | none => rfl
    | some age => rw [h1, h2, h3]; simp [pyOr, truthyQ]
  · rintro ⟨h1, h2, h3⟩
    unfold ageCheck
    cases p.age with
    | none => rfl
    | some age => rw [h1, h2, h3]; simp [pyOr, truthyQ]

/-- C10 witness: a zero funds threshold with unset aliases is skipped. -/
theorem C10_amended_witness :
    fundsCheck profIelts7 ruleZeroFunds = ([], 0, []) :=
  (C10_amended profIelts7 ruleZeroFunds).2.2.2.2.2.2.1 ⟨rfl, rfl, rfl⟩

/-- Rounding to two decimals is monotone. -/
theorem pyRound2_mono {x y : ℚ} (h : x ≤ y) : pyRound2 x ≤ pyRound2 y := by
  unfold pyRound2
  have hr : round (x * 100) ≤ round (y * 100) := by
    rw [round_eq, round_eq]
    exact Int.floor_mono (by linarith)
  have hc : ((round (x * 100) : ℤ) : ℚ) ≤ ((round (y * 100) : ℤ) : ℚ) := by
    exact_mod_cast hr
  linarith

/-- Rounding to two decimals keeps `[0, 100]`. -/
theorem pyRound2_bounds {x : ℚ} (h0 : 0 ≤ x) (h1 : x ≤ 100) :
    0 ≤ pyRound2 x ∧ pyRound2 x ≤ 100 := by
  have e1 : pyRound2 0 = 0 := by
    unfold pyRound2
    norm_num
  have e2 : pyRound2 100 = 100 := by
    unfold pyRound2
    have : ((100 : ℚ) * 100) = ((10000 : ℤ) : ℚ) := by norm_num
    rw [this, round_intCast]
    norm_num
  have l1 := pyRound2_mono h0
  have l2 := pyRound2_mono h1
  rw [e1] at l1
  rw [e2] at l2
  exact ⟨l1, l2⟩

/-- The eligibility factor stays in `[0, 1]` for a raw score in `[0, 1]`,
whatever the status string is. -/
theorem scoreEligibility_bounds (mr : MatchResult) (h0 : 0 ≤ mr.raw_score)
    (h1 : mr.raw_score ≤ 1) : 0 ≤ scoreEligibility mr ∧ scoreEligibility mr ≤ 1 := by
  unfold scoreEligibility
  split_ifs <;> constructor <;> nlinarith

/-- The language-alignment factor stays in `[0, 1]`. -/
theorem scoreLanguageAlignment_bounds (p : Profile) (c : String) :
    0 ≤ scoreLanguageAlignment p c ∧ scoreLanguageAlignment p c ≤ 1 := by
  unfold scoreLanguageAlignment
  rw [show (1.0 : ℚ) = 1 by norm_num]
  refine ⟨le_min ?_ (by norm_num), min_le_right _ _⟩
  dsimp only
  split_ifs <;> norm_num

/-- The financial factor stays in `[0, 1]`. -/
theorem scoreFinancialCapacity_bounds (mr : MatchResult) :
    0 ≤ scoreFinancialCapacity mr ∧ scoreFinancialCapacity mr ≤ 1 := by
  unfold scoreFinancialCapacity
  dsimp only
  split_ifs <;> constructor <;> norm_num

/-- Every static country factor stays in `[0, 1]`. -/
theorem getCountryFactor_bounds (c : String) (f : Factor) :
    0 ≤ getCountryFactor c f ∧ getCountryFactor c f ≤ 1 := by
  unfold getCountryFactor countryData
  split_ifs <;> cases f <;> simp only [CountryData.get] <;> norm_num

/-- C7: the seven factor weights sum to exactly 1.0, the final score is
`round(100 × Σ(weight_i × factor_i), 2)`, and for a raw score in `[0, 1]`
the final score lies in `[0, 100]`. -/
theorem C7_weights_and_range (p : Profile) (mr : MatchResult)
    (h0 : 0 ≤ mr.raw_score) (h1 : mr.raw_score ≤ 1) :
    (factorNames.map WEIGHTS).sum = 1 ∧
    calculateFinalScore p mr =
      pyRound2 (100 * (WEIGHTS "eligibility" * scoreEligibility mr +
        WEIGHTS "language_alignment" * scoreLanguageAlignment p (mr.country.getD "") +
        WEIGHTS "financial_capacity" * scoreFinancialCapacity mr +
        WEIGHTS "visa_difficulty" * getCountryFactor (mr.country.getD "") .visa_difficulty +
        WEIGHTS "quality_of_life" * getCountryFactor (mr.country.getD "") .quality_of_life +
        WEIGHTS "cost_of_living" * getCountryFactor (mr.country.getD "") .cost_of_living +
        WEIGHTS "job_market" * getCountryFactor (mr.country.getD "") .job_market)) ∧
    0 ≤ calculateFinalScore p mr ∧ calculateFinalScore p mr ≤ 100 := by
  have we : WEIGHTS "eligibility" = 0.30 := by with_unfolding_all rfl
  have wl : WEIGHTS "language_alignment" = 0.15 := by with_unfolding_all rfl
  have wf : WEIGHTS "financial_capacity" = 0.20 := by with_unfolding_all rfl
  have wv : WEIGHTS "visa_difficulty" = 0.10 := by with_unfolding_all rfl
  have wq : WEIGHTS "quality_of_life" = 0.10 := by with_unfolding_all rfl
  have wc : WEIGHTS "cost_of_living" = 0.10 := by with_unfolding_all rfl
  have wj : WEIGHTS "job_market" = 0.05 := by with_unfolding_all rfl
  have hsum : (factorNames.map WEIGHTS).sum = 1 := by
    unfold factorNames
    simp only [List.map_cons, List.map_nil, List.sum_cons, List.sum_nil,
      we, wl, wf, wv, wq, wc, wj]
    norm_num
  have hform : calculateFinalScore p mr =
      pyRound2 (100 * (WEIGHTS "eligibility" * scoreEligibility mr +
        WEIGHTS "language_alignment" * scoreLanguageAlignment p (mr.country.getD "") +
        WEIGHTS "financial_capacity" * scoreFinancialCapacity mr +
        WEIGHTS "visa_difficulty" * getCountryFactor (mr.country.getD "") .visa_difficulty +
        WEIGHTS "quality_of_life" * getCountryFactor (mr.country.getD "") .quality_of_life +
        WEIGHTS "cost_of_living" * getCountryFactor (mr.country.getD "") .cost_of_living +
        WEIGHTS "job_market" * getCountryFactor (mr.country.getD "") .job_market)) := by
    unfold calculateFinalScore
    simp only [List.map_cons, List.map_nil, List.sum_cons, List.sum_nil]
    congr 1
    ring
  refine ⟨hsum, hform, ?_, ?_⟩ <;>
  · rw [hform, we, wl, wf, wv, wq, wc, wj]
    obtain ⟨e0, e1⟩ := scoreEligibility_bounds mr h0 h1
    obtain ⟨l0, l1⟩ := scoreLanguageAlignment_bounds p (mr.country.getD "")
    obtain ⟨f0, f1⟩ := scoreFinancialCapacity_bounds mr
    obtain ⟨v0, v1⟩ := getCountryFactor_bounds (mr.country.getD "") .visa_difficulty
    obtain ⟨q0, q1⟩ := getCountryFactor_bounds (mr.country.getD "") .quality_of_life
    obtain ⟨c0, c1⟩ := getCountryFactor_bounds (mr.country.getD "") .cost_of_living
    obtain ⟨j0, j1⟩ := getCountryFactor_bounds (mr.country.getD "") .job_market
    first
    | exact (pyRound2_bounds (by nlinarith) (by nlinarith)).1
    | exact (pyRound2_bounds (by nlinarith) (by nlinarith)).2

/-- C7 witness: the bounds applied at a concrete clean match result. -/
theorem C7_weights_and_range_witness :
    0 ≤ mrCanadaBest.raw_score ∧ mrCanadaBest.raw_score ≤ 1 ∧
    (0 ≤ calculateFinalScore profIelts7 mrCanadaBest ∧
      calculateFinalScore profIelts7 mrCanadaBest ≤ 100) :=
  ⟨by norm_num [mrCanadaBest], by norm_num [mrCanadaBest],
   (C7_weights_and_range profIelts7 mrCanadaBest (by norm_num [mrCanadaBest])
      (by norm_num [mrCanadaBest])).2.2⟩

/-- The weighted-sum formula behind `_calculate_final_score`, with the
weight constants evaluated. -/
theorem calcFinal_formula (p : Profile) (mr : MatchResult) :
    calculateFinalScore p mr = pyRound2 (100 * (0.30 * scoreEligibility mr +
      0.15 * scoreLanguageAlignment p (mr.country.getD "") +
      0.20 * scoreFinancialCapacity mr +
      0.10 * getCountryFactor (mr.country.getD "") .visa_difficulty +
      0.10 * getCountryFactor (mr.country.getD "") .quality_of_life +
      0.10 * getCountryFactor (mr.country.getD "") .cost_of_living +
      0.05 * getCountryFactor (mr.country.getD "") .job_market)) := by
  unfold calculateFinalScore
  simp only [List.map_cons, List.map_nil, List.sum_cons, List.sum_nil]
  rw [show WEIGHTS "eligibility" = 0.30 from by with_unfolding_all rfl,
      show WEIGHTS "language_alignment" = 0.15 from by with_unfolding_all rfl,
      show WEIGHTS "financial_capacity" = 0.20 from by with_unfolding_all rfl,
      show WEIGHTS "visa_difficulty" = 0.10 from by with_unfolding_all rfl,
      show WEIGHTS "quality_of_life" = 0.10 from by with_unfolding_all rfl,
      show WEIGHTS "cost_of_living" = 0.10 from by with_unfolding_all rfl,
      show WEIGHTS "job_market" = 0.05 from by with_unfolding_all rfl]
  congr 1
  ring

/-- Eligibility of a result whose status came from `statusOf` its score. -/
theorem scoreEligibility_statusOf (c pw : Option String) (s : ℚ) (g : Gaps) :
    scoreEligibility ⟨c, pw, statusOf s, s, g⟩ = eligVal s := by
  unfold scoreEligibility statusOf eligVal
  dsimp only
  by_cases h1 : s ≥ SCORE_OK
  · simp [h1]
  · by_cases h2 : s ≥ SCORE_BORDERLINE
    · simp [h1, h2]
    · simp [h1, h2]

/-- Financial capacity of a literal match result via the issue flag. -/
theorem scoreFinancialCapacity_mk (c pw : Option String) (st : String) (s : ℚ) (g : Gaps) :
    scoreFinancialCapacity ⟨c, pw, st, s, g⟩ =
      if hasFundsIssueL g.missing_requirements = true then bandVal s else 1.0 := by
  unfold scoreFinancialCapacity bandVal
  dsimp only
  cases hasFundsIssueL g.missing_requirements <;> simp

/-- `eligVal` is monotone on `[0, 1]`-side scores. -/
theorem eligVal_mono {s t : ℚ} (hs : 0 ≤ s) (hst : s ≤ t) : eligVal s ≤ eligVal t := by
  unfold eligVal SCORE_OK SCORE_BORDERLINE
  split_ifs <;> nlinarith

/-- `bandVal` is monotone. -/
theorem bandVal_mono {s t : ℚ} (hst : s ≤ t) : bandVal s ≤ bandVal t := by
  unfold bandVal
  split_ifs <;> linarith

/-- `bandVal` never exceeds 1. -/
theorem bandVal_le_one (s : ℚ) : bandVal s ≤ 1 := by
  unfold bandVal
  split_ifs <;> norm_num

/-- The funds-shortfall gap message always triggers the funds-issue scan
(it contains the substring "funds"). -/
theorem fundsShortMsg_issue (req f : ℚ) : fundsIssuePred (fundsShortMsg req f) = true := by
  have ext : ∀ (l x : List Char), "funds".data <:+: l → "funds".data <:+: l ++ x :=
    fun l x h => h.trans (List.prefix_append l x).isInfix
  have base : "funds".data <:+: ("Insufficient funds (need $".data.map Char.toLower) := by
    decide
  unfold fundsIssuePred strContainsLower
  rw [Bool.or_eq_true]
  left
  rw [decide_eq_true_eq]
  unfold fundsShortMsg
  simp only [String.data_append, List.map_append]
  exact ext _ _ (ext _ _ (ext _ _ (ext _ _ base)))

/-- The per-rule pipeline is definitionally `pipelineFrom` at the actual
funds-check outcome. -/
theorem pipelineScore_eq (p : Profile) (r : Rule) :
    pipelineScore p r = pipelineFrom p r (fundsCheck p r) := rfl

/-- No component of `pipelineFrom` reads `funds_usd` once the funds check
is abstracted. -/
theorem pipelineFrom_funds_indep (p : Profile) (f : Option ℚ) (r : Rule)
    (fc : List String × ℕ × List String) :
    pipelineFrom { p with funds_usd := f } r fc = pipelineFrom p r fc := rfl

/-- Two funds-shortfall outcomes with the same single penalty and
issue-triggering messages give the same final score (risk notes and the
message text do not reach the score). -/
theorem pipelineFrom_fundsShort_eq (p : Profile) (r : Rule) (m m2 : String)
    (rk rk2 : List String) (hm : fundsIssuePred m = true) (hm2 : fundsIssuePred m2 = true) :
    pipelineFrom p r ([m], 1, rk) = pipelineFrom p r ([m2], 1, rk2) := by
  unfold pipelineFrom
  rw [calcFinal_formula, calcFinal_formula]
  dsimp only
  rw [scoreEligibility_statusOf, scoreEligibility_statusOf,
      scoreFinancialCapacity_mk, scoreFinancialCapacity_mk]
  dsimp only
  have i1 : hasFundsIssueL ((ageCheck p r).1 ++ (degreeCheck p r).1 ++ (ieltsCheck p r).1 ++
      [m] ++ (workCheck p r).1) = true := by
    unfold hasFundsIssueL
    simp [List.any_append, hm]
  have i2 : hasFundsIssueL ((ageCheck p r).1 ++ (degreeCheck p r).1 ++ (ieltsCheck p r).1 ++
      [m2] ++ (workCheck p r).1) = true := by
    unfold hasFundsIssueL
    simp [List.any_append, hm2]
  rw [i1, i2]

/-- Removing the funds penalty can only raise the final score. -/
theorem pipelineFrom_fundsShort_le (p : Profile) (r : Rule) (m : String)
    (rk : List String) (hm : fundsIssuePred m = true) :
    pipelineFrom p r ([m], 1, rk) ≤ pipelineFrom p r ([], 0, []) := by
  unfold pipelineFrom
  rw [calcFinal_formula, calcFinal_formula]
  dsimp only
  rw [scoreEligibility_statusOf, scoreEligibility_statusOf,
      scoreFinancialCapacity_mk, scoreFinancialCapacity_mk]
  dsimp only
  have i1 : hasFundsIssueL ((ageCheck p r).1 ++ (degreeCheck p r).1 ++ (ieltsCheck p r).1 ++
      [m] ++ (workCheck p r).1) = true := by
    unfold hasFundsIssueL
    simp [List.any_append, hm]
  rw [i1]
  set n : ℕ := (ageCheck p r).2 + (degreeCheck p r).2 + (ieltsCheck p r).2 + 0 + (workCheck p r).2
    with hn
  have hcast : ((ageCheck p r).2 + (degreeCheck p r).2 + (ieltsCheck p r).2 + 1 +
      (workCheck p r).2 : ℚ) = (n : ℚ) + 1 := by
    rw [hn]
    push_cast
    ring
  set s1 : ℚ := max 0 (1 - ((ageCheck p r).2 + (degreeCheck p r).2 + (ieltsCheck p r).2 + 1 +
      (workCheck p r).2 : ℕ) / MAX_PENALTIES) with hs1def
  set s2 : ℚ := max 0 (1 - (n : ℚ) / MAX_PENALTIES) with hs2def
  have hM : MAX_PENALTIES = 5 := rfl
  have hs1nn : 0 ≤ s1 := le_max_left _ _
  have hs12 : s1 ≤ s2 := by
    rw [hs1def, hs2def]
    apply max_le_max (le_refl 0)
    push_cast [hM]
    rw [hn]
    push_cast
    linarith
  have he := eligVal_mono hs1nn hs12
  have hf : (if hasFundsIssueL ((ageCheck p r).1 ++ (degreeCheck p r).1 ++ (ieltsCheck p r).1 ++
        [] ++ (workCheck p r).1) = true then bandVal s2 else 1.0) ≥ bandVal s1 := by
    split_ifs with hI
    · exact bandVal_mono hs12
    · calc bandVal s1 ≤ 1 := bandVal_le_one s1
        _ ≤ 1.0 := by norm_num
  apply pyRound2_mono
  rw [if_pos rfl]
  have hlang := scoreLanguageAlignment_bounds p (r.country.getD "")
  nlinarith [he, hf]

/-- C5: the composite final score of the full pipeline is non-decreasing
in the profile's `funds_usd`, holding every other profile field, the rule
and the static country data fixed. -/
theorem C5_funds_monotone (p : Profile) (r : Rule) (f1 f2 : ℚ) (h : f1 ≤ f2) :
    pipelineScore { p with funds_usd := some f1 } r ≤
      pipelineScore { p with funds_usd := some f2 } r := by
  rw [pipelineScore_eq, pipelineScore_eq]
  have hfc : ∀ f : ℚ, fundsCheck { p with funds_usd := some f } r =
      (match requiredFunds r with
       | none => ([], 0, [])
       | some req =>
         if f < req then
           ([fundsShortMsg req f], 1,
             if req - f > LARGE_FUNDS_GAP then [largeGapMsg (req - f)] else [])
         else ([], 0, [])) := by
    intro f
    unfold fundsCheck
    cases requiredFunds r <;> rfl
  rw [hfc f1, hfc f2, pipelineFrom_funds_indep p (some f1) r,
      pipelineFrom_funds_indep p (some f2) r]
  cases hreq : requiredFunds r with
  | none => exact le_refl _
  | some req =>
    dsimp only
    by_cases h1 : f1 < req
    · by_cases h2 : f2 < req
      · rw [if_pos h1, if_pos h2]
        exact le_of_eq (pipelineFrom_fundsShort_eq p r _ _ _ _
          (fundsShortMsg_issue req f1) (fundsShortMsg_issue req f2))
      · rw [if_pos h1, if_neg h2]
        exact pipelineFrom_fundsShort_le p r _ _ (fundsShortMsg_issue req f1)
    · have h2 : ¬ f2 < req := fun hh => h1 (lt_of_le_of_lt h hh)
      rw [if_neg h1, if_neg h2]

/-- C5 witness: raising funds from 5000 to 6000 against a funds-requiring
rule does not lower the final score. -/
theorem C5_funds_monotone_witness :
    (5000 : ℚ) ≤ 6000 ∧
    pipelineScore { profIelts7 with funds_usd := some 5000 } ruleFunds10000 ≤
      pipelineScore { profIelts7 with funds_usd := some 6000 } ruleFunds10000 :=
  ⟨by norm_num, C5_funds_monotone profIelts7 ruleFunds10000 5000 6000 (by norm_num)⟩

/-- Inserting into the sorted list is a permutation. -/
theorem insertDesc_perm (x : ScoredCountry) (l : List ScoredCountry) :
    List.Perm (insertDesc x l) (x :: l) := by
  induction l with
  | nil => exact List.Perm.refl _
  | cons y ys ih =>
    unfold insertDesc
    split_ifs
    · exact List.Perm.refl _
    · exact (ih.cons y).trans (List.Perm.swap x y ys)

/-- The stable sort is a permutation of its input. -/
theorem sortDesc_perm (l : List ScoredCountry) : List.Perm (sortDesc l) l := by
  induction l with
  | nil => exact List.Perm.refl _
  | cons x xs ih =>
    unfold sortDesc
    exact (insertDesc_perm x (sortDesc xs)).trans (ih.cons x)

/-- The countries listed across the three tiers are a permutation of the
countries of the classified list: every entry lands in exactly one tier. -/
theorem classify_countries_perm (l : List ScoredCountry) :
    List.Perm
      ((classifyCountries l).best_options.map TierEntry.country ++
        (classifyCountries l).acceptable.map TierEntry.country ++
        (classifyCountries l).not_recommended)
      (l.map ScoredCountry.country) := by
  induction l with
  | nil => exact List.Perm.refl _
  | cons item rest ih =>
    unfold classifyCountries
    split_ifs
    · exact ih.cons item.country
    · refine List.Perm.trans ?_ (ih.cons item.country)
      simp only [List.map_cons, List.cons_append, List.append_assoc]
      exact List.perm_middle
    · refine List.Perm.trans ?_ (ih.cons item.country)
      dsimp only
      exact List.perm_middle

/-- The countries of the scored list are the truthy countries of the
input match results, in order. -/
theorem scored_map_country (p : Profile) (mrs : List MatchResult) :
    (mrs.filterMap (scoredOf p)).map ScoredCountry.country = mrs.filterMap truthyCountry := by
  induction mrs with
  | nil => rfl
  | cons mr rest ih =>
    cases htc : truthyCountry mr with
    | none => simp [List.filterMap_cons, scoredOf, htc, ih]
    | some c => simp [List.filterMap_cons, scoredOf, htc, ih]

/-- C1 counterexample: two match results for the same country (Canada via
two pathways) rank into two different tiers, so the tier sizes sum to 2
while the input has a single distinct country — the claimed
"every country appears in exactly one tier" and
"sum of tier sizes = number of distinct countries" both fail when a
country occurs more than once in the input. -/
theorem C1_counterexample :
    ((rankCountries [mrCanadaBest, mrCanadaWorst] profIelts7).toOption.map fun o =>
      (o.best_options.length + o.acceptable.length + o.not_recommended.length,
       o.best_options.map TierEntry.country, o.not_recommended)) =
      some (2, ["Canada"], ["Canada"]) ∧
    ([mrCanadaBest, mrCanadaWorst].filterMap truthyCountry).dedup.length = 1 := by
  constructor <;> with_unfolding_all decide

/-- C1 (amended): for every non-empty input accepted by `rank`, the
countries listed across the three tiers are a permutation of the truthy
countries of the input match results — each such match result contributes
exactly one tier entry — so the tier sizes sum to the number of match
results with a non-empty country, and every country appears across the
tiers with exactly its input multiplicity (exactly once when the input
countries are distinct). -/
theorem C1_amended (mrs : List MatchResult) (p : Profile) (out : RankingOutput)
    (h : rankCountries mrs p = .ok out) :
    List.Perm
      (out.best_options.map TierEntry.country ++ out.acceptable.map TierEntry.country ++
        out.not_recommended)
      (mrs.filterMap truthyCountry) ∧
    out.best_options.length + out.acceptable.length + out.not_recommended.length =
      (mrs.filterMap truthyCountry).length ∧
    ∀ c : String,
      (out.best_options.map TierEntry.country ++ out.acceptable.map TierEntry.country ++
        out.not_recommended).count c = (mrs.filterMap truthyCountry).count c := by
  have hout : out = rankCountriesCore mrs p := by
    unfold rankCountries at h
    by_cases h1 : mrs = []
    · rw [if_pos h1] at h
      exact absurd h (by simp)
    · rw [if_neg h1] at h
      by_cases h2 : p.isEmpty = true
      · rw [if_pos h2] at h
        exact absurd h (by simp)
      · rw [if_neg h2] at h
        injection h with h3
        exact h3.symm
  subst hout
  unfold rankCountriesCore
  dsimp only
  have hperm :
      List.Perm
        ((classifyCountries (sortDesc (mrs.filterMap (scoredOf p)))).best_options.map
            TierEntry.country ++
          (classifyCountries (sortDesc (mrs.filterMap (scoredOf p)))).acceptable.map
            TierEntry.country ++
          (classifyCountries (sortDesc (mrs.filterMap (scoredOf p)))).not_recommended)
        (mrs.filterMap truthyCountry) := by
    refine (classify_countries_perm _).trans ?_
    refine List.Perm.trans ((sortDesc_perm _).map ScoredCountry.country) ?_
    rw [scored_map_country]
  refine ⟨hperm, ?_, fun c => hperm.count_eq c⟩
  have hlen := hperm.length_eq
  simp only [List.length_append, List.length_map] at hlen
  omega

/-- C1 witness: the partition count and multiplicity applied at the
two-result Canada input. -/
theorem C1_amended_witness :
    ((rankCountriesCore [mrCanadaBest, mrCanadaWorst] profIelts7).best_options.length +
      (rankCountriesCore [mrCanadaBest, mrCanadaWorst] profIelts7).acceptable.length +
      (rankCountriesCore [mrCanadaBest, mrCanadaWorst] profIelts7).not_recommended.length =
      ([mrCanadaBest, mrCanadaWorst].filterMap truthyCountry).length) ∧
    ((rankCountriesCore [mrCanadaBest, mrCanadaWorst] profIelts7).best_options.map
        TierEntry.country ++
      (rankCountriesCore [mrCanadaBest, mrCanadaWorst] profIelts7).acceptable.map
        TierEntry.country ++
      (rankCountriesCore [mrCanadaBest, mrCanadaWorst] profIelts7).not_recommended).count
        "Canada" =
      ([mrCanadaBest, mrCanadaWorst].filterMap truthyCountry).count "Canada" :=
  ⟨(C1_amended [mrCanadaBest, mrCanadaWorst] profIelts7 _
      (by with_unfolding_all rfl)).2.1,
   (C1_amended [mrCanadaBest, mrCanadaWorst] profIelts7 _
      (by with_unfolding_all rfl)).2.2 "Canada"⟩

end ImmigrationPathfinder
